import Mathlib

/-!
Verification development for the Traffic-Light-Board firmware (src/main.c).

The program is bare-metal C for a Raspberry Pi 4: `main` configures GPIO
lines 0/1 as edge-triggered inputs and 4/12/16 as outputs, configures the
generic interrupt controller (GIC) distributor, enables IRQs on the core,
and then drives a three-phase LED pattern selected by the shared word
`sharedValue`.

The embedding below is shallow: each hardware register is a natural number
holding a 32-bit value, register writes become functional updates of an
explicit state record, and the ordered side effects of `main` that the
claims talk about are captured as explicit traces (a list of startup steps,
a list of (register-index, value) writes for each GIC register block, and a
list of (state, dwell-time) phases per dispatcher iteration).

The headers `gpio.h`, `gic.h` and `sysreg.h` are not part of the sources
available here; where their content decides a question (access width of the
GIC register accessors, the encoding of the privilege level, the meaning of
a target-register byte) the model follows the specification document, as
indicated by doc comments beginning with "Modelled from the spec".
-/

/-- All 32 bits set: registers are 32-bit (spec, section 3). -/
def mask32 : Nat := 2 ^ 32 - 1

/-- 32-bit bitwise complement, used for the C expressions of the shape
`r &= ~m` in main.c. -/
def wnot (m : Nat) : Nat := mask32 ^^^ m

/-- Byte `k` (0 = least significant) of a 32-bit value. -/
def byteOf (v k : Nat) : Nat := (v >>> (8 * k)) &&& 0xFF

/-- The GPIO-related machine state touched by main.c: the function-select
registers GPFSEL0/GPFSEL1, the pull register GPPUPPDN0, the rising/falling
edge-detect enable registers GPREN0/GPFEN0, and `lev`, the latched output
levels of the GPIO lines.  GPSET0/GPCLR0 are write-1-to-act command
registers; their effect is modelled directly on `lev` (writing mask `m` to
GPSET0 sets the lines in `m`, writing it to GPCLR0 clears them). -/
structure GpioRegs where
  fsel0 : Nat
  fsel1 : Nat
  pup0  : Nat
  ren0  : Nat
  fen0  : Nat
  lev   : Nat
  deriving DecidableEq

/-- The all-zero register state, used as a concrete evaluation point. -/
def gpioZero : GpioRegs := ⟨0, 0, 0, 0, 0, 0⟩

/-- main.c lines 191-214: set GPIO 0 to input (clear FSEL field 0), busy-wait
settle delay (no register effect), read-modify-write GPPUPPDN0 clearing the
2-bit field for GPIO 0 and then setting its bit 1 (`r |= (0x1 << 1)`), second
settle delay, then an absolute write arming rising-edge detect for GPIO 0. -/
def init_GPIO0_to_risingEdgeInterrupt (g : GpioRegs) : GpioRegs :=
  let g := { g with fsel0 := g.fsel0 &&& wnot 0x7 }
  let g := { g with pup0 := (g.pup0 &&& wnot 0x3) ||| (0x1 <<< 1) }
  { g with ren0 := 0x1 <<< 0 }

/-- main.c lines 216-244: settle delay, set GPIO 1 to input (clear FSEL field
1), settle delay, read-modify-write GPPUPPDN0 clearing the 2-bit field for
GPIO 1, settle delay, then an absolute write arming falling-edge detect for
GPIO 1. -/
def init_GPIO1_to_fallingEdgeInterrupt (g : GpioRegs) : GpioRegs :=
  let g := { g with fsel0 := g.fsel0 &&& wnot (0x7 <<< 3) }
  let g := { g with pup0 := g.pup0 &&& wnot (0x3 <<< 2) }
  { g with fen0 := 0x1 <<< 1 }

/-- main.c lines 246-252. -/
def init_GPIO4_to_output (g : GpioRegs) : GpioRegs :=
  { g with fsel0 := (g.fsel0 &&& wnot (0x7 <<< 12)) ||| (0x1 <<< 12) }

/-- main.c lines 262-268. -/
def init_GPIO12_to_output (g : GpioRegs) : GpioRegs :=
  { g with fsel1 := (g.fsel1 &&& wnot (0x7 <<< 6)) ||| (0x1 <<< 6) }

/-- main.c lines 273-279. -/
def init_GPIO16_to_output (g : GpioRegs) : GpioRegs :=
  { g with fsel1 := (g.fsel1 &&& wnot (0x7 <<< 18)) ||| (0x1 <<< 18) }

/-- First statement of set_GPIO4 (main.c line 255): `*GPREN0 &= ~(0x1 << 0)`,
disarming rising-edge detect for GPIO 0. -/
def set_GPIO4_disableDetect (g : GpioRegs) : GpioRegs :=
  { g with ren0 := g.ren0 &&& wnot (0x1 <<< 0) }

/-- Second statement of set_GPIO4 (main.c line 256): `*GPSET0 = (0x1 << 4)`. -/
def set_GPIO4_drive (g : GpioRegs) : GpioRegs :=
  { g with lev := g.lev ||| (0x1 <<< 4) }

/-- Third statement of set_GPIO4 (main.c line 257): `*GPREN0 |= (0x1 << 0)`,
re-arming rising-edge detect for GPIO 0. -/
def set_GPIO4_reenableDetect (g : GpioRegs) : GpioRegs :=
  { g with ren0 := g.ren0 ||| (0x1 <<< 0) }

/-- main.c lines 254-258. -/
def set_GPIO4 (g : GpioRegs) : GpioRegs :=
  set_GPIO4_reenableDetect (set_GPIO4_drive (set_GPIO4_disableDetect g))

/-- main.c line 260: `*GPCLR0 = (0x1 << 4)`. -/
def clear_GPIO4 (g : GpioRegs) : GpioRegs :=
  { g with lev := g.lev &&& wnot (0x1 <<< 4) }

/-- main.c line 270. -/
def set_GPIO12 (g : GpioRegs) : GpioRegs :=
  { g with lev := g.lev ||| (0x1 <<< 12) }

/-- main.c line 271. -/
def clear_GPIO12 (g : GpioRegs) : GpioRegs :=
  { g with lev := g.lev &&& wnot (0x1 <<< 12) }

/-- main.c line 281. -/
def set_GPIO16 (g : GpioRegs) : GpioRegs :=
  { g with lev := g.lev ||| (0x1 <<< 16) }

/-- main.c line 282. -/
def clear_GPIO16 (g : GpioRegs) : GpioRegs :=
  { g with lev := g.lev &&& wnot (0x1 <<< 16) }

/-- Mask of the three output lines driven by the dispatcher (GPIO 4, 12, 16). -/
def outMask : Nat := (1 <<< 4) ||| (1 <<< 12) ||| (1 <<< 16)

/-- The output-line portion of the latched GPIO levels. -/
def outBits (g : GpioRegs) : Nat := g.lev &&& outMask

/-- One iteration of the dispatcher loop (main.c lines 155-188), given the
value of `sharedValue` sampled at the top of the iteration.  Returns the
final GPIO state together with the phase trace: one `(state, dwell)` pair
per executed phase, where `state` is the GPIO state at the moment the
phase's three set/clear writes have completed and `dwell` is the argument
passed to `microsecond_delay` right after them.  For a shared value other
than 0 or 1 neither branch runs and the iteration performs no GPIO write. -/
def loopIter (sharedValue : Nat) (g : GpioRegs) : GpioRegs × List (GpioRegs × Nat) :=
  if sharedValue = 0 then
    let g1 := clear_GPIO4 (clear_GPIO12 (set_GPIO16 g))
    let g2 := clear_GPIO4 (clear_GPIO16 (set_GPIO12 g1))
    let g3 := clear_GPIO16 (clear_GPIO12 (set_GPIO4 g2))
    (g3, [(g1, 500000), (g2, 500000), (g3, 500000)])
  else if sharedValue = 1 then
    let g1 := clear_GPIO16 (clear_GPIO12 (set_GPIO4 g))
    let g2 := clear_GPIO16 (clear_GPIO4 (set_GPIO12 g1))
    let g3 := clear_GPIO12 (clear_GPIO4 (set_GPIO16 g2))
    (g3, [(g1, 250000), (g2, 250000), (g3, 250000)])
  else (g, [])

/-!
GIC distributor setup (main.c lines 113-150).

Modelled from the spec: the headers defining `GIC_GICD_IPRIORITYR`,
`GIC_GICD_ITARGETSR`, `GIC_GICD_ICFGR`, `GIC_GICD_ISENABLER` and
`GIC_GICD_CTLR` are not under src/.  Per the spec (section 3, "Register
Address ... 32-bit here") every accessor is a pointer to a 32-bit register,
so the C expression `REG + (i * 4)` denotes the register at word index
`i * 4` within the block.  Each loop is embedded as the list of
(word-index, value) writes it performs, in order. -/

/-- main.c lines 115-117: `*(GIC_GICD_IPRIORITYR + (i * 4)) = 0` for
`i = 0 .. 15`. -/
def gicPriorityWrites : List (Nat × Nat) :=
  (List.range 16).map (fun i => (i * 4, 0x00000000))

/-- The four interrupt IDs whose one-byte priority fields live in 32-bit
priority register `r` (spec, section 4.3 step 1 together with section 3:
priorities are per-ID fields packed into 32-bit registers, four per
register). -/
def idsOfPriorityReg (r : Nat) : List Nat :=
  [4 * r, 4 * r + 1, 4 * r + 2, 4 * r + 3]

/-- The interrupt IDs whose priority field the setup loop zeroes, in write
order. -/
def gicZeroedIDs : List Nat :=
  (gicPriorityWrites.map Prod.fst).flatMap idsOfPriorityReg

/-- main.c lines 119-121: `*(GIC_GICD_ITARGETSR + (i * 4)) = 0x01010101` for
`i = 8 .. 15`. -/
def gicTargetWrites : List (Nat × Nat) :=
  (List.range' 8 8).map (fun i => (i * 4, 0x01010101))

/-- main.c lines 123-125: `*(GIC_GICD_ICFGR + (i * 4)) = 0xFFFFFFFF` for
`i = 1 .. 3`. -/
def gicEdgeCfgWrites : List (Nat × Nat) :=
  (List.range' 1 3).map (fun i => (i * 4, 0xFFFFFFFF))

/-- main.c line 128: `*(GIC_GICD_ISENABLER + (1 * 4)) = 0x00020000`, the
single enable-set write (word index 4, bit 17, i.e. interrupt ID
4 * 32 + 17 = 145, the bank-0 GPIO interrupt). -/
def gicEnableWrite : Nat × Nat := (1 * 4, 0x00020000)

/-- The interrupt ID enabled by `gicEnableWrite`. -/
def gpioBankIntId : Nat := gicEnableWrite.1 * 32 + 17

/-- Modelled from the spec: each interrupt ID owns a one-byte target-core
mask, four IDs per 32-bit ITARGETSR register (spec section 3: per-interrupt
"target-core mask"; section 4.3 step 2: "one byte per core-affinity
field"), and bit `core` of an ID's mask set means that core may take the
interrupt (glossary: the distributor "forwards qualifying interrupts to
target processor cores").  `idInReg` selects the byte (0-3) inside the
register value `regVal`. -/
def coreMayTake (regVal idInReg core : Nat) : Bool :=
  (byteOf regVal idInReg).testBit core

/-- main.c lines 140-146: the value written to GICD_CTLR as a function of
the queried exception level (highest level = 3; modelled from the spec,
section 6: `current_privilege_level()` returns the privilege level as a
small integer, since `getCurrentEL` is defined in the missing sysreg.h). -/
def gicd_CTLR_value (el : Nat) : Nat :=
  if el = 3 then 0x3 else 0x1

/-!
The startup sequence of `main` (main.c lines 28-150), as an ordered trace
of the operations it performs.  Runs of consecutive diagnostic UART prints
are collapsed into a single `uartOut` step; the 16-iteration priority loop,
the 8-iteration target loop and the 3-iteration edge-configuration loop
each appear as one step (their per-register contents are `gicPriorityWrites`,
`gicTargetWrites` and `gicEdgeCfgWrites` above). -/

/-- One step of `main`'s startup sequence. -/
inductive StartupStep where
  | uartInit | uartOut
  | readEL | readSPSel | readDAIF | readGPREN0 | readGPFEN0
  | initSharedState
  | gpioCfg (line : Nat)
  | enableIRQ
  | gicPriorityZero | gicTargetSet | gicEdgeCfg | gicEnableLine
  | gicForwardEnable
  deriving DecidableEq, BEq

/-- The startup steps of `main` in program order (main.c lines 34-150):
UART init and initial diagnostics, shared-state init, the five GPIO
configuration calls (lines 85-89), `enableIRQ()` (line 92), post-enable
diagnostics, then the four GIC distributor configuration stages
(lines 115-128) and the controller-level forwarding enable (lines 140-146). -/
def startupTrace : List StartupStep :=
  [.uartInit, .uartOut, .readEL, .uartOut, .readSPSel, .uartOut,
   .readDAIF, .uartOut, .readGPREN0, .uartOut, .readGPFEN0, .uartOut,
   .initSharedState, .uartOut,
   .gpioCfg 0, .gpioCfg 1, .gpioCfg 4, .gpioCfg 12, .gpioCfg 16,
   .enableIRQ,
   .readDAIF, .uartOut, .readGPREN0, .uartOut, .readGPFEN0, .uartOut,
   .gicPriorityZero, .gicTargetSet, .gicEdgeCfg,
   .uartOut, .gicEnableLine, .uartOut,
   .gicForwardEnable, .uartOut]

/-- Steps that are configuration steps in the sense of claim C1: GPIO line
configuration and the interrupt-controller configuration stages. -/
def isConfigStep : StartupStep → Bool
  | .gpioCfg _ => true
  | .gicPriorityZero => true
  | .gicTargetSet => true
  | .gicEdgeCfg => true
  | .gicEnableLine => true
  | .gicForwardEnable => true
  | _ => false

/-- GPIO line configuration steps. -/
def isGpioCfgStep : StartupStep → Bool
  | .gpioCfg _ => true
  | _ => false

/-- Interrupt-controller configuration steps. -/
def isGicCfgStep : StartupStep → Bool
  | .gicPriorityZero => true
  | .gicTargetSet => true
  | .gicEdgeCfg => true
  | .gicEnableLine => true
  | .gicForwardEnable => true
  | _ => false

/-- The property claim C1 asserts of the startup trace: `enableIRQ` occurs
exactly once and every configuration step occurs strictly before it. -/
def enableOnceAfterAllConfig (tr : List StartupStep) : Bool :=
  (tr.count .enableIRQ == 1) &&
  ((tr.takeWhile (fun s => s != .enableIRQ)).filter isConfigStep
      == tr.filter isConfigStep)

/-- The ordering the startup trace actually satisfies: `enableIRQ` occurs
exactly once, all GPIO configuration precedes it, and all
interrupt-controller configuration follows it. -/
def enableOnceAfterGpioBeforeGic (tr : List StartupStep) : Bool :=
  (tr.count .enableIRQ == 1) &&
  ((tr.takeWhile (fun s => s != .enableIRQ)).filter isGpioCfgStep
      == tr.filter isGpioCfgStep) &&
  ((tr.takeWhile (fun s => s != .enableIRQ)).filter isGicCfgStep == []) &&
  (tr.filter isGicCfgStep ==
    [.gicPriorityZero, .gicTargetSet, .gicEdgeCfg, .gicEnableLine,
     .gicForwardEnable])

/-! Helper lemmas for the dispatcher phases. -/

/-- Absorption used for the set/clear phase analysis: or-ing a mask in and
then and-ing with that same mask yields the mask. -/
lemma lor_then_land (x y : Nat) : (x ||| y) &&& y = y := by
  apply Nat.eq_of_testBit_eq
  intro i
  simp only [Nat.testBit_land, Nat.testBit_lor]
  cases x.testBit i <;> cases y.testBit i <;> rfl

/-- After asserting line 16 and clearing lines 12 and 4, the output-line
portion of the levels is exactly bit 16, whatever the prior levels. -/
lemma outPortion_c (lev : Nat) :
    (((lev ||| (0x1 <<< 16)) &&& wnot (0x1 <<< 12)) &&& wnot (0x1 <<< 4))
        &&& outMask = 0x1 <<< 16 := by
  simp only [Nat.land_assoc]
  have h : wnot (0x1 <<< 12) &&& (wnot (0x1 <<< 4) &&& outMask)
      = 0x1 <<< 16 := by decide
  rw [h]
  exact lor_then_land lev (0x1 <<< 16)

/-- After asserting line 12 and clearing lines 16 and 4, the output-line
portion of the levels is exactly bit 12, whatever the prior levels. -/
lemma outPortion_b (lev : Nat) :
    (((lev ||| (0x1 <<< 12)) &&& wnot (0x1 <<< 16)) &&& wnot (0x1 <<< 4))
        &&& outMask = 0x1 <<< 12 := by
  simp only [Nat.land_assoc]
  have h : wnot (0x1 <<< 16) &&& (wnot (0x1 <<< 4) &&& outMask)
      = 0x1 <<< 12 := by decide
  rw [h]
  exact lor_then_land lev (0x1 <<< 12)

/-- After asserting line 4 and clearing lines 12 and 16, the output-line
portion of the levels is exactly bit 4, whatever the prior levels. -/
lemma outPortion_a (lev : Nat) :
    (((lev ||| (0x1 <<< 4)) &&& wnot (0x1 <<< 12)) &&& wnot (0x1 <<< 16))
        &&& outMask = 0x1 <<< 4 := by
  simp only [Nat.land_assoc]
  have h : wnot (0x1 <<< 12) &&& (wnot (0x1 <<< 16) &&& outMask)
      = 0x1 <<< 4 := by decide
  rw [h]
  exact lor_then_land lev (0x1 <<< 4)

/-- After asserting line 12 and clearing lines 4 and 16, the output-line
portion of the levels is exactly bit 12, whatever the prior levels. -/
lemma outPortion_b' (lev : Nat) :
    (((lev ||| (0x1 <<< 12)) &&& wnot (0x1 <<< 4)) &&& wnot (0x1 <<< 16))
        &&& outMask = 0x1 <<< 12 := by
  simp only [Nat.land_assoc]
  have h : wnot (0x1 <<< 4) &&& (wnot (0x1 <<< 16) &&& outMask)
      = 0x1 <<< 12 := by decide
  rw [h]
  exact lor_then_land lev (0x1 <<< 12)

/-- After asserting line 16 and clearing lines 4 and 12, the output-line
portion of the levels is exactly bit 16, whatever the prior levels. -/
lemma outPortion_c' (lev : Nat) :
    (((lev ||| (0x1 <<< 16)) &&& wnot (0x1 <<< 4)) &&& wnot (0x1 <<< 12))
        &&& outMask = 0x1 <<< 16 := by
  simp only [Nat.land_assoc]
  have h : wnot (0x1 <<< 4) &&& (wnot (0x1 <<< 12) &&& outMask)
      = 0x1 <<< 16 := by decide
  rw [h]
  exact lor_then_land lev (0x1 <<< 16)

/-! Claim theorems. -/

/-- C1, counterexample: the claim that `enableIRQ` is called only after all
configuration steps (GPIO configuration and the entire interrupt-controller
configuration) is false of the startup sequence of `main`: in
`startupTrace` the `enableIRQ` step (main.c line 92) precedes every
interrupt-controller configuration step (main.c lines 115-146), so the
configuration steps before the single `enableIRQ` are not all of them. -/
theorem startup_enableIRQ_not_after_all_config :
    enableOnceAfterAllConfig startupTrace = false := by decide

/-- C1, amended: in the startup sequence `enableIRQ` is called exactly
once, after all five GPIO line configuration calls but before every
interrupt-controller configuration stage (priority zeroing, target-core
assignment, edge-trigger configuration, interrupt-line enable, and
controller-level forwarding enable, which occur after it in this order). -/
theorem startup_enableIRQ_after_gpio_before_gic :
    enableOnceAfterGpioBeforeGic startupTrace = true := by decide

/-- C2: in a dispatcher iteration that samples shared state 0, three phases
run, asserting lines C, B, A (GPIO 16, 12, 4) in that order, each followed
by a 500000 microsecond (500 ms) dwell; at the end of each phase's three
set/clear writes exactly one of the three output lines is asserted (the
output-line portion of the levels is the single bit of that line),
whatever the levels before the iteration. -/
theorem dispatcher_state0_phases (g : GpioRegs) :
    ∃ g1 g2 g3 : GpioRegs,
      loopIter 0 g = (g3, [(g1, 500000), (g2, 500000), (g3, 500000)]) ∧
      outBits g1 = 0x1 <<< 16 ∧ outBits g2 = 0x1 <<< 12 ∧
      outBits g3 = 0x1 <<< 4 := by
  refine ⟨_, _, _, rfl, ?_, ?_, ?_⟩
  · exact outPortion_c g.lev
  · exact outPortion_b (clear_GPIO4 (clear_GPIO12 (set_GPIO16 g))).lev
  · exact outPortion_a
      (clear_GPIO4 (clear_GPIO16 (set_GPIO12
        (clear_GPIO4 (clear_GPIO12 (set_GPIO16 g)))))).lev

/-- C3: in a dispatcher iteration that samples shared state 1, three phases
run, asserting lines A, B, C (GPIO 4, 12, 16) in that order, each followed
by a 250000 microsecond (250 ms) dwell, with the same mutual-exclusion
property: at the end of each phase exactly one output line is asserted,
whatever the levels before the iteration. -/
theorem dispatcher_state1_phases (g : GpioRegs) :
    ∃ g1 g2 g3 : GpioRegs,
      loopIter 1 g = (g3, [(g1, 250000), (g2, 250000), (g3, 250000)]) ∧
      outBits g1 = 0x1 <<< 4 ∧ outBits g2 = 0x1 <<< 12 ∧
      outBits g3 = 0x1 <<< 16 := by
  refine ⟨_, _, _, rfl, ?_, ?_, ?_⟩
  · exact outPortion_a g.lev
  · exact outPortion_b' (clear_GPIO16 (clear_GPIO12 (set_GPIO4 g))).lev
  · exact outPortion_c'
      (clear_GPIO16 (clear_GPIO4 (set_GPIO12
        (clear_GPIO16 (clear_GPIO12 (set_GPIO4 g)))))).lev

/-- C4: the value written to GICD_CTLR is the both-groups bitmask 0x3 when
the queried privilege level is the highest (3), and the single-group
bitmask 0x1 for any lower level. -/
theorem gicd_ctlr_privilege_branch (el : Nat) :
    (el = 3 → gicd_CTLR_value el = 0x3) ∧
    (el < 3 → gicd_CTLR_value el = 0x1) := by
  constructor
  · intro h
    simp [gicd_CTLR_value, h]
  · intro h
    simp only [gicd_CTLR_value]
    rw [if_neg (by omega)]

/-- Witness for `gicd_ctlr_privilege_branch` at privilege levels 3 and 2. -/
theorem gicd_ctlr_privilege_branch_witness :
    gicd_CTLR_value 3 = 0x3 ∧ gicd_CTLR_value 2 = 0x1 :=
  ⟨(gicd_ctlr_privilege_branch 3).1 rfl,
   (gicd_ctlr_privilege_branch 2).2 (by decide)⟩

/-- C5, counterexample: the priority-zeroing loop does skip interrupt IDs.
IDs 0 and 16 have their priority field zeroed but ID 4, which lies between
them in the configured span, does not: the loop's stride of 4 register
indices (`i * 4` on a 32-bit register accessor) leaves IDs 4-15 of every
16-ID span unwritten, so "no ID skipped" fails. -/
theorem gic_priority_skips_id4 :
    (0 ∈ gicZeroedIDs) ∧ (16 ∈ gicZeroedIDs) ∧ 4 ∉ gicZeroedIDs := by
  decide

/-- C5, amended: the priority-zeroing loop writes each of the 16 priority
registers at word indices 0, 4, ..., 60 exactly once, zeroing exactly the
interrupt IDs id < 256 with id mod 16 < 4 (the first four IDs of each
16-ID span), each at most once; the remaining IDs, such as 4-15, are
skipped. -/
theorem gic_priority_zeroing_blocks :
    gicZeroedIDs.Nodup ∧
    gicZeroedIDs = (List.range 256).filter (fun id => decide (id % 16 < 4))
      := by decide

/-- C6, counterexample: every target write carries the value 0x01010101,
and under the per-interrupt one-byte target-core mask (bit c set meaning
core c may take the interrupt) that value lets core 0 take the interrupt
but not core 1, so "may be taken by any of the first four cores" fails at
the written value. -/
theorem gic_target_core1_excluded :
    (gicTargetWrites.all (fun w => w.2 == 0x01010101)) = true ∧
    coreMayTake 0x01010101 0 0 = true ∧
    coreMayTake 0x01010101 0 1 = false := by decide

/-- C6, amended: every write of the target loop carries 0x01010101, whose
four per-interrupt core-affinity bytes are identical, each targeting
exactly the first core (core 0); the written block includes the register
covering the enabled GPIO-bank interrupt ID. -/
theorem gic_target_first_core_uniform :
    (gicTargetWrites.all fun w =>
      (w.2 == 0x01010101) &&
      (byteOf w.2 0 == byteOf w.2 1) && (byteOf w.2 1 == byteOf w.2 2) &&
      (byteOf w.2 2 == byteOf w.2 3) &&
      ((List.range 4).all fun j => (List.range 8).all fun c =>
          coreMayTake w.2 j c == decide (c = 0))) = true ∧
    gpioBankIntId / 4 ∈ gicTargetWrites.map Prod.fst := by decide

/-- C7: evaluation at the failing input.  Starting from an all-zero
register state, `init_GPIO0_to_risingEdgeInterrupt` leaves the 2-bit pull
field of GPIO 0 equal to 0b10 (pull-down, from `r |= (0x1 << 1)` at main.c
line 205), not 0b00 (pull disabled) as the claim and the code's own
comment state; `init_GPIO1_to_fallingEdgeInterrupt` does leave GPIO 1's
field at 0b00. -/
theorem gpio0_pull_field_pulldown :
    ((init_GPIO0_to_risingEdgeInterrupt gpioZero).pup0 >>> 0) &&& 0x3 = 0x2
    ∧ ((init_GPIO1_to_fallingEdgeInterrupt gpioZero).pup0 >>> 2) &&& 0x3
        = 0x0 := by decide

/-- C8: a dispatcher iteration that samples a shared state other than 0 or
1 performs no GPIO write at all: the register state is returned unchanged
and the phase trace is empty, so all three output lines keep their
previous levels. -/
theorem dispatcher_other_state_noop (s : Nat) (g : GpioRegs)
    (h0 : s ≠ 0) (h1 : s ≠ 1) : loopIter s g = (g, []) := by
  simp [loopIter, h0, h1]

/-- Witness for `dispatcher_other_state_noop` at shared state 2. -/
theorem dispatcher_other_state_noop_witness :
    loopIter 2 gpioZero = (gpioZero, []) :=
  dispatcher_other_state_noop 2 gpioZero (by decide) (by decide)

/-- C9: for every prior register state, `set_GPIO4` first clears GPIO 0's
rising-edge detect bit (bit 0 of GPREN0), performs the output set (bit 4
of the levels is asserted), and re-enables the detect bit, so when the
call returns bit 0 of GPREN0 is set, never left cleared. -/
theorem set_GPIO4_guard_reenables (g : GpioRegs) :
    ((set_GPIO4 g).ren0).testBit 0 = true ∧
    ((set_GPIO4_disableDetect g).ren0).testBit 0 = false ∧
    ((set_GPIO4 g).lev).testBit 4 = true := by
  refine ⟨?_, ?_, ?_⟩
  · show ((g.ren0 &&& wnot (0x1 <<< 0)) ||| (0x1 <<< 0)).testBit 0 = true
    have h : (0x1 <<< 0 : Nat).testBit 0 = true := by decide
    simp [Nat.testBit_lor, h]
  · show (g.ren0 &&& wnot (0x1 <<< 0)).testBit 0 = false
    rw [Nat.testBit_land]
    have h : (wnot (0x1 <<< 0)).testBit 0 = false := by decide
    rw [h, Bool.and_false]
  · show (g.lev ||| (0x1 <<< 4)).testBit 4 = true
    rw [Nat.testBit_lor]
    have h : (0x1 <<< 4 : Nat).testBit 4 = true := by decide
    rw [h, Bool.or_true]

/-- C10: the edge-detect enable writes are absolute whole-register
assignments, so after `init_GPIO0_to_risingEdgeInterrupt` followed by
`init_GPIO1_to_fallingEdgeInterrupt`, GPREN0 equals exactly 0x00000001 and
GPFEN0 equals exactly 0x00000002, regardless of the registers' prior
contents: exactly GPIO 0 (rising) and GPIO 1 (falling) are armed and any
previously armed bits in those two registers are cleared. -/
theorem edge_detect_registers_absolute (g : GpioRegs) :
    (init_GPIO1_to_fallingEdgeInterrupt
        (init_GPIO0_to_risingEdgeInterrupt g)).ren0 = 0x00000001 ∧
    (init_GPIO1_to_fallingEdgeInterrupt
        (init_GPIO0_to_risingEdgeInterrupt g)).fen0 = 0x00000002 :=
  ⟨rfl, rfl⟩
